import Mathlib

/-!
Verification of the simulation core of the procedurally generated 3D world
(chunk streaming, terrain, decoration sampling, bird/villager state machines,
player controller, particle pool).

The definitions below are a shallow embedding of the TypeScript source:
  * `src/components/minecraft/utils.ts`      — `pseudoRandom`, `getHeight`
  * `src/components/minecraft/constants.ts`  — tuning constants
  * `src/components/minecraft/world.ts`      — `createTree` etc.
  * `src/components/minecraft/environment.ts`— `ParticleSystem`
  * the main scene component — `updateWorld`, the `animate` frame loop
    (player physics, bird AI, villager AI, chunk-change gate).

JavaScript `number`s are modelled as real numbers (`ℝ`); `Math.random()`
calls are modelled by an explicit stream `rng : ℕ → ℝ` of draws (one fixed
index per call site), which makes the deterministic/seeded parts and the
nondeterministic parts of the generation pipeline explicit.
-/

namespace MinecraftCore

/-! ### Constants (src/components/minecraft/constants.ts) -/

def CHUNK_SIZE : ℤ := 32
def RENDER_DISTANCE_IN_CHUNKS : ℤ := 5
noncomputable def TREE_DENSITY : ℝ := 0.1
noncomputable def BUSH_DENSITY : ℝ := 0.08
noncomputable def DIRT_PATCH_DENSITY : ℝ := 0.15
noncomputable def FLOWER_DENSITY : ℝ := 0.15
noncomputable def MUSHROOM_DENSITY : ℝ := 0.08
noncomputable def GRASS_DENSITY : ℝ := 0.3
noncomputable def BIRD_TREE_CHANCE : ℝ := 0.4
noncomputable def NEST_CHANCE : ℝ := 0.3
noncomputable def VILLAGE_DENSITY : ℝ := 0.04

noncomputable def PLAYER_SPEED : ℝ := 9
noncomputable def PLAYER_RUN_MULTIPLIER : ℝ := 2
noncomputable def PLAYER_ROTATION_SPEED : ℝ := 3
noncomputable def GRAVITY : ℝ := 30
noncomputable def JUMP_FORCE : ℝ := 10

noncomputable def BIRD_MAX_SPEED : ℝ := 4.0
noncomputable def BIRD_PERCEPTION_RADIUS : ℝ := 20
noncomputable def BIRD_SEPARATION_DISTANCE : ℝ := 5
noncomputable def VILLAGER_INTERACTION_RADIUS : ℝ := 8

/-! ### utils.ts -/

/-- `pseudoRandom` from utils.ts: `x = Math.sin(seed) * 10000; return x - Math.floor(x)`
(the post-increment `seed++` has no observable effect). -/
noncomputable def pseudoRandom (seed : ℝ) : ℝ :=
  Real.sin seed * 10000 - ⌊Real.sin seed * 10000⌋

/-- `getHeight` from utils.ts: layered sine/cosine terrain field
(scale 80, roughness 0.6, amplitude 15). -/
noncomputable def getHeight (x z : ℝ) : ℝ :=
  Real.sin (x / 80) * Real.cos (z / 80) * 15 +
    Real.sin (x / (80 * 0.5)) * Real.cos (z / (80 * 0.5)) * 15 * 0.6

/-! ### Player controller (animate loop, player movement/gravity/clamp/jump)

The per-frame player update: horizontal displacement from the input vector
rotated by the current yaw (mobile joystick path of the source; the desktop
keyboard path differs only in how the horizontal displacement is computed),
then the vertical block of the source verbatim:
`groundYPosition = getHeight(x, z) + 1.0`, gravity integration, clamp, and
the jump impulse (which runs after the clamp and does not change `y`). -/

structure PlayerState where
  x : ℝ
  z : ℝ
  y : ℝ
  vy : ℝ
  rotY : ℝ
  onGround : Bool

noncomputable def playerAdvance (s : PlayerState) (moveX moveY : ℝ) (jump : Bool)
    (delta : ℝ) : PlayerState :=
  let rot := s.rotY - moveX * PLAYER_ROTATION_SPEED * delta
  let x := s.x + Real.sin rot * (PLAYER_SPEED * moveY) * delta
  let z := s.z + Real.cos rot * (PLAYER_SPEED * moveY) * delta
  let groundY := getHeight x z + 1.0
  let vy := s.vy - GRAVITY * delta
  let y := s.y + vy * delta
  let afterClamp : PlayerState :=
    if y ≤ groundY then
      { x := x, z := z, y := groundY, vy := 0, rotY := rot, onGround := true }
    else
      { x := x, z := z, y := y, vy := vy, rotY := rot, onGround := s.onGround }
  if jump && afterClamp.onGround then
    { afterClamp with vy := JUMP_FORCE, onGround := false }
  else
    afterClamp

/-- C1: after the vertical-integration-and-clamp step of any frame (arbitrary
inputs, arbitrary delta, arbitrary incoming state — hence after every frame of
every sequence of `playerAdvance` calls), the player's height is at least the
terrain height at the player's horizontal position plus the 1.0 clamp margin;
in particular `player.y ≥ getHeight(player.x, player.z)`. -/
theorem player_no_terrain_clipping (s : PlayerState) (moveX moveY : ℝ)
    (jump : Bool) (delta : ℝ) :
    getHeight (playerAdvance s moveX moveY jump delta).x
        (playerAdvance s moveX moveY jump delta).z + 1 ≤
      (playerAdvance s moveX moveY jump delta).y := by
  unfold playerAdvance
  dsimp only
  split
  · split <;> norm_num
  · rename_i h
    push_neg at h
    norm_num at h
    split <;> (dsimp only; linarith)

/-! ### Villager physics (animate loop, "Villager physics to keep them grounded")

The source guards the whole gravity/clamp block with
`if (data.state !== 'SLEEPING')`; a sleeping villager gets no physics at all
(its position is instead eased toward `homePoint` by the routine switch). -/

inductive VState
  | IDLE | WANDERING | GOING_TO_WORK | WORKING | GOING_HOME | SLEEPING
  | LOOKING_AT_PLAYER
deriving DecidableEq, Repr

structure VillagerPhys where
  x : ℝ
  z : ℝ
  y : ℝ
  vy : ℝ
  state : VState
  isOnGround : Bool

noncomputable def villagerPhysicsStep (v : VillagerPhys) (delta : ℝ) : VillagerPhys :=
  if v.state ≠ VState.SLEEPING then
    let groundY := getHeight v.x v.z
    let vy := v.vy - GRAVITY * delta
    let y := v.y + vy * delta
    if y < groundY then { v with y := groundY, vy := 0, isOnGround := true }
    else { v with y := y, vy := vy, isOnGround := false }
  else v

/-- A concrete sleeping villager, resting below terrain level. -/
noncomputable def sleepingVillagerEx : VillagerPhys :=
  { x := 0, z := 0, y := 5, vy := 0, state := VState.SLEEPING, isOnGround := true }

/-- C6 counterexample: villager grounding is NOT independent of routine state.
For a `SLEEPING` villager the physics block is skipped entirely, so vertical
velocity does not integrate gravity (the claim requires
`vy' = vy − GRAVITY·delta` for every villager in every state). -/
theorem villager_sleeping_skips_physics :
    (villagerPhysicsStep sleepingVillagerEx 1).vy ≠
      sleepingVillagerEx.vy - GRAVITY * 1 := by
  norm_num [villagerPhysicsStep, sleepingVillagerEx, GRAVITY]

/-- C6 (amended): for every villager NOT in `SLEEPING`, the frame integrates
gravity into the vertical velocity and clamps the resulting height to the
terrain height at the villager's (x,z) — i.e. the new height is exactly
`max (y + (vy − GRAVITY·delta)·delta) (getHeight x z)`, mirroring the player's
grounding rule. -/
theorem villager_grounding_not_sleeping (v : VillagerPhys) (delta : ℝ)
    (h : v.state ≠ VState.SLEEPING) :
    (villagerPhysicsStep v delta).y =
      max (v.y + (v.vy - GRAVITY * delta) * delta) (getHeight v.x v.z) := by
  unfold villagerPhysicsStep
  rw [if_pos h]
  dsimp only
  split
  · rename_i hlt
    exact (max_eq_right (le_of_lt hlt)).symm
  · rename_i hge
    push_neg at hge
    exact (max_eq_left hge).symm

/-- A concrete idle villager used to witness the grounding theorem. -/
noncomputable def idleVillagerEx : VillagerPhys :=
  { x := 0, z := 0, y := 0, vy := 0, state := VState.IDLE, isOnGround := true }

theorem villager_grounding_not_sleeping_witness :
    idleVillagerEx.state ≠ VState.SLEEPING ∧
    (villagerPhysicsStep idleVillagerEx 1).y =
      max (idleVillagerEx.y + (idleVillagerEx.vy - GRAVITY * 1) * 1)
        (getHeight idleVillagerEx.x idleVillagerEx.z) :=
  ⟨by simp [idleVillagerEx],
   villager_grounding_not_sleeping idleVillagerEx 1 (by simp [idleVillagerEx])⟩

/-! ### World streaming: the chunk-change gate (animate loop, end of frame)

Each frame the loop computes `playerChunk = (⌊x/CHUNK_SIZE⌋, ⌊z/CHUNK_SIZE⌋)`
and calls `updateWorld` iff `lastPlayerChunk` is unset or differs; it records
the coordinate only when it ran. -/

noncomputable def chunkOf (x z : ℝ) : ℤ × ℤ :=
  (⌊x / (CHUNK_SIZE : ℝ)⌋, ⌊z / (CHUNK_SIZE : ℝ)⌋)

/-- One frame of the gate: returns whether `updateWorld` ran this frame and
the new `lastPlayerChunk`. -/
noncomputable def chunkGateStep (last : Option (ℤ × ℤ)) (p : ℝ × ℝ) :
    Bool × Option (ℤ × ℤ) :=
  let c := chunkOf p.1 p.2
  match last with
  | none => (true, some c)
  | some l => if l ≠ c then (true, some c) else (false, some l)

/-- The `lastPlayerChunk` reference after a sequence of frames at the given
player positions (initially `null`). -/
noncomputable def chunkGateLast (ps : List (ℝ × ℝ)) : Option (ℤ × ℤ) :=
  ps.foldl (fun l p => (chunkGateStep l p).2) none

theorem chunkGateStep_snd (l : Option (ℤ × ℤ)) (p : ℝ × ℝ) :
    (chunkGateStep l p).2 = some (chunkOf p.1 p.2) := by
  unfold chunkGateStep
  cases l with
  | none => rfl
  | some c =>
      dsimp only
      split
      · rfl
      · rename_i h
        rw [not_ne_iff.mp h]

/-- C7: the world-streaming reconciliation runs on the first frame, and on a
later frame it runs iff the player's chunk coordinate differs from the chunk
coordinate of the previous frame — which is exactly the coordinate recorded at
the last reconciliation (second conjunct): `updateWorld` is never executed on
a frame whose chunk coordinate equals the recorded one. -/
theorem updateWorld_runs_iff_chunk_changed (ps : List (ℝ × ℝ)) (q p : ℝ × ℝ) :
    (chunkGateStep none p).1 = true ∧
    chunkGateLast (ps ++ [q]) = some (chunkOf q.1 q.2) ∧
    ((chunkGateStep (chunkGateLast (ps ++ [q])) p).1 = true ↔
      chunkOf p.1 p.2 ≠ chunkOf q.1 q.2) := by
  have hlast : chunkGateLast (ps ++ [q]) = some (chunkOf q.1 q.2) := by
    unfold chunkGateLast
    rw [List.foldl_append]
    exact chunkGateStep_snd _ q
  refine ⟨rfl, hlast, ?_⟩
  rw [hlast]
  unfold chunkGateStep
  dsimp only
  constructor
  · intro h
    intro heq
    rw [heq] at h
    simp at h
  · intro h
    rw [if_pos (Ne.symm h)]

/-! ### World streaming: chunk teardown (updateWorld, the `activeChunks.forEach`
removal loop)

For every Active chunk whose coordinate is more than
`RENDER_DISTANCE_IN_CHUNKS` away (Chebyshev) from the player's chunk: if an
active village exists for the chunk id, the village is removed and
`villagersRef` is filtered of villagers with that chunk id; then `birdsRef` is
filtered of birds with that chunk id; then the chunk itself is removed
(`scene.remove` happens inside the very same filter callbacks, so removal from
the tracked refs and from the scene is simultaneous). -/

structure TrackedEntity where
  id : ℕ
  chunkId : ℤ × ℤ
deriving DecidableEq

structure WorldRefs where
  activeChunks : List (ℤ × ℤ)
  activeVillages : List (ℤ × ℤ)
  birds : List TrackedEntity
  villagers : List TrackedEntity

/-- `Math.abs(x - currentChunkX) > RENDER_DISTANCE_IN_CHUNKS || ...` -/
def outsideRenderRadius (cur c : ℤ × ℤ) : Prop :=
  |c.1 - cur.1| > RENDER_DISTANCE_IN_CHUNKS ∨ |c.2 - cur.2| > RENDER_DISTANCE_IN_CHUNKS

instance (cur c : ℤ × ℤ) : Decidable (outsideRenderRadius cur c) := by
  unfold outsideRenderRadius; infer_instance

/-- Body of the teardown loop for one chunk id `c`. -/
def teardownChunk (cur : ℤ × ℤ) (w : WorldRefs) (c : ℤ × ℤ) : WorldRefs :=
  if outsideRenderRadius cur c then
    let w1 :=
      if c ∈ w.activeVillages then
        { w with activeVillages := w.activeVillages.erase c,
                 villagers := w.villagers.filter fun v => decide (v.chunkId ≠ c) }
      else w
    { w1 with birds := w1.birds.filter fun b => decide (b.chunkId ≠ c),
              activeChunks := w1.activeChunks.erase c }
  else w

/-- The teardown pass of `updateWorld`: iterate the loop body over the active
chunk registry (`activeChunks.forEach`). -/
def updateWorldTeardown (cur : ℤ × ℤ) (w : WorldRefs) : WorldRefs :=
  w.activeChunks.foldl (teardownChunk cur) w

/-- Reachable-state invariant established by generation: a villager is only
ever created inside the branch that also registers its chunk id in
`activeVillages`, and both are removed together. -/
def VillagersHaveVillages (w : WorldRefs) : Prop :=
  ∀ v ∈ w.villagers, v.chunkId ∈ w.activeVillages

theorem teardownChunk_birds_subset (cur : ℤ × ℤ) (w : WorldRefs) (c : ℤ × ℤ) :
    ∀ b ∈ (teardownChunk cur w c).birds, b ∈ w.birds := by
  intro b hb
  unfold teardownChunk at hb
  split at hb
  · dsimp only at hb
    split at hb <;> exact (List.mem_filter.mp hb).1
  · exact hb

theorem teardownChunk_villagers_subset (cur : ℤ × ℤ) (w : WorldRefs) (c : ℤ × ℤ) :
    ∀ v ∈ (teardownChunk cur w c).villagers, v ∈ w.villagers := by
  intro v hv
  unfold teardownChunk at hv
  split at hv
  · dsimp only at hv
    split at hv
    · exact (List.mem_filter.mp hv).1
    · exact hv
  · exact hv

theorem teardownFold_birds_subset (cur : ℤ × ℤ) (l : List (ℤ × ℤ)) :
    ∀ (w : WorldRefs), ∀ b ∈ (l.foldl (teardownChunk cur) w).birds, b ∈ w.birds := by
  induction l with
  | nil => intro w b hb; exact hb
  | cons a t ih =>
      intro w b hb
      exact teardownChunk_birds_subset cur w a b (ih (teardownChunk cur w a) b hb)

theorem teardownFold_villagers_subset (cur : ℤ × ℤ) (l : List (ℤ × ℤ)) :
    ∀ (w : WorldRefs), ∀ v ∈ (l.foldl (teardownChunk cur) w).villagers,
      v ∈ w.villagers := by
  induction l with
  | nil => intro w v hv; exact hv
  | cons a t ih =>
      intro w v hv
      exact teardownChunk_villagers_subset cur w a v (ih (teardownChunk cur w a) v hv)

theorem teardownChunk_preserves_inv (cur : ℤ × ℤ) (w : WorldRefs) (c : ℤ × ℤ)
    (hw : VillagersHaveVillages w) :
    VillagersHaveVillages (teardownChunk cur w c) := by
  intro v hv
  by_cases hout : outsideRenderRadius cur c
  · by_cases hcv : c ∈ w.activeVillages
    · unfold teardownChunk at hv ⊢
      rw [if_pos hout] at hv ⊢
      dsimp only at hv ⊢
      rw [if_pos hcv] at hv ⊢
      dsimp only at hv ⊢
      rcases List.mem_filter.mp hv with ⟨hvmem, hvne⟩
      have hne : v.chunkId ≠ c := of_decide_eq_true hvne
      exact (List.mem_erase_of_ne hne).mpr (hw v hvmem)
    · unfold teardownChunk at hv ⊢
      rw [if_pos hout] at hv ⊢
      dsimp only at hv ⊢
      rw [if_neg hcv] at hv ⊢
      exact hw v hv
  · unfold teardownChunk at hv ⊢
    rw [if_neg hout] at hv ⊢
    exact hw v hv

theorem teardownChunk_kills (cur : ℤ × ℤ) (w : WorldRefs) (c : ℤ × ℤ)
    (hout : outsideRenderRadius cur c) (hw : VillagersHaveVillages w) :
    (∀ b ∈ (teardownChunk cur w c).birds, b.chunkId ≠ c) ∧
    (∀ v ∈ (teardownChunk cur w c).villagers, v.chunkId ≠ c) := by
  unfold teardownChunk
  rw [if_pos hout]
  dsimp only
  constructor
  · intro b hb
    split at hb <;> exact of_decide_eq_true (List.mem_filter.mp hb).2
  · intro v hv
    split at hv
    · exact of_decide_eq_true (List.mem_filter.mp hv).2
    · rename_i hcv
      intro heq
      exact hcv (heq ▸ hw v hv)

theorem teardownFold_kills (cur : ℤ × ℤ) (c : ℤ × ℤ)
    (hout : outsideRenderRadius cur c) (l : List (ℤ × ℤ)) :
    ∀ (w : WorldRefs), VillagersHaveVillages w → c ∈ l →
      (∀ b ∈ (l.foldl (teardownChunk cur) w).birds, b.chunkId ≠ c) ∧
      (∀ v ∈ (l.foldl (teardownChunk cur) w).villagers, v.chunkId ≠ c) := by
  induction l with
  | nil => intro w _ hc; exact absurd hc (List.not_mem_nil c)
  | cons a t ih =>
      intro w hw hc
      rcases List.mem_cons.mp hc with hac | hct
      · subst hac
        have hkill := teardownChunk_kills cur w c hout hw
        constructor
        · intro b hb
          exact hkill.1 b (teardownFold_birds_subset cur t _ b hb)
        · intro v hv
          exact hkill.2 v (teardownFold_villagers_subset cur t _ v hv)
      · exact ih (teardownChunk cur w a) (teardownChunk_preserves_inv cur w a hw) hct

/-- C2: teardown is total. Whenever the reconciliation pass processes a state
in which every villager's chunk id has a registered active village (which
generation guarantees), then for every Active chunk `c` outside the render
radius, after the pass no tracked bird and no tracked villager references `c`:
the entities were removed (from the refs and — in the same filter callbacks —
from the scene) in this very reconciliation call. -/
theorem updateWorld_teardown_total (cur : ℤ × ℤ) (w : WorldRefs)
    (hw : VillagersHaveVillages w) (c : ℤ × ℤ) (hc : c ∈ w.activeChunks)
    (hout : outsideRenderRadius cur c) :
    (∀ b ∈ (updateWorldTeardown cur w).birds, b.chunkId ≠ c) ∧
    (∀ v ∈ (updateWorldTeardown cur w).villagers, v.chunkId ≠ c) :=
  teardownFold_kills cur c hout w.activeChunks w hw hc

/-- A tiny concrete world: the player sits at chunk (0,0), chunk (10,0) is
active with one bird and one villager and a registered village. -/
def teardownWorldEx : WorldRefs :=
  { activeChunks := [(10, 0)], activeVillages := [(10, 0)],
    birds := [⟨0, (10, 0)⟩], villagers := [⟨1, (10, 0)⟩] }

theorem updateWorld_teardown_total_witness :
    (VillagersHaveVillages teardownWorldEx ∧ (10, 0) ∈ teardownWorldEx.activeChunks ∧
      outsideRenderRadius (0, 0) (10, 0)) ∧
    ((∀ b ∈ (updateWorldTeardown (0, 0) teardownWorldEx).birds, b.chunkId ≠ (10, 0)) ∧
     (∀ v ∈ (updateWorldTeardown (0, 0) teardownWorldEx).villagers, v.chunkId ≠ (10, 0))) :=
  ⟨⟨by unfold VillagersHaveVillages teardownWorldEx; decide, by decide, by decide⟩,
    updateWorld_teardown_total (0, 0) teardownWorldEx
      (by unfold VillagersHaveVillages teardownWorldEx; decide) (10, 0)
      (by decide) (by decide)⟩

/-! ### ParticleSystem (environment.ts)

A fixed pool of particles constructed once. `emit` walks the pool from the
start and activates inactive slots until either `options.count` particles have
been created or the pool is exhausted; active slots are never touched.
Each activation consumes seven `Math.random()` draws, modelled by an explicit
stream indexed per activation ordinal. -/

structure Particle where
  active : Bool
  position : ℝ × ℝ × ℝ
  velocity : ℝ × ℝ × ℝ
  life : ℝ
  maxLife : ℝ
  size : ℝ
  startSize : ℝ
  endSize : ℝ
  color : ℝ × ℝ × ℝ
  startColor : ℝ × ℝ × ℝ
  endColor : ℝ × ℝ × ℝ
  rotation : ℝ
  rotationSpeed : ℝ

/-- The emitter options as used at the call sites (two-ended ranges; the
scalar/default variants of the optional fields are elided). -/
structure ParticleEmitterOptions where
  position : ℝ × ℝ × ℝ
  count : ℕ
  color : ℝ × ℝ × ℝ
  velocity : ℝ × ℝ × ℝ
  velocityRandomness : ℝ
  size : ℝ × ℝ
  life : ℝ × ℝ
  rotationSpeed : ℝ × ℝ

noncomputable def mathLerp (a b t : ℝ) : ℝ := a + (b - a) * t

/-- `initParticle`: activate a slot, sampling velocity jitter, lifetime, size,
rotation and rotation speed from the request's ranges (draws `rng (7j) …
rng (7j+6)` for the `j`-th activation of this call). -/
noncomputable def initParticle (opts : ParticleEmitterOptions) (rng : ℕ → ℝ)
    (j : ℕ) : Particle :=
  let maxLife := mathLerp opts.life.1 opts.life.2 (rng (7 * j + 3))
  let size := mathLerp opts.size.1 opts.size.2 (rng (7 * j + 4))
  { active := true
    position := opts.position
    velocity := (opts.velocity.1 + (rng (7 * j) - 0.5) * opts.velocityRandomness,
                 opts.velocity.2.1 + (rng (7 * j + 1) - 0.5) * opts.velocityRandomness,
                 opts.velocity.2.2 + (rng (7 * j + 2) - 0.5) * opts.velocityRandomness)
    life := maxLife
    maxLife := maxLife
    size := size
    startSize := size
    endSize := 0
    color := opts.color
    startColor := opts.color
    endColor := opts.color
    rotation := rng (7 * j + 5) * (2 * Real.pi)
    rotationSpeed := mathLerp opts.rotationSpeed.1 opts.rotationSpeed.2 (rng (7 * j + 6)) }

/-- The `emit` loop: `for (i = 0; i < particles.length && created < count; i++)
if (!particles[i].active) { initParticle(...); created++ }`.  Once `created`
reaches `count` the remaining slots are left untouched, which is what the
`else` branch below also does. -/
noncomputable def emitGo (opts : ParticleEmitterOptions) (rng : ℕ → ℝ) :
    List Particle → ℕ → List Particle
  | [], _ => []
  | p :: ps, created =>
      if created < opts.count ∧ p.active = false then
        initParticle opts rng created :: emitGo opts rng ps (created + 1)
      else
        p :: emitGo opts rng ps created

noncomputable def ParticleSystem.emit (pool : List Particle)
    (opts : ParticleEmitterOptions) (rng : ℕ → ℝ) : List Particle :=
  emitGo opts rng pool 0

def activeCount (pool : List Particle) : ℕ :=
  (pool.filter fun p => p.active).length

def inactiveCount (pool : List Particle) : ℕ :=
  (pool.filter fun p => !p.active).length

theorem initParticle_active (opts : ParticleEmitterOptions) (rng : ℕ → ℝ) (j : ℕ) :
    (initParticle opts rng j).active = true := rfl

theorem emitGo_length (opts : ParticleEmitterOptions) (rng : ℕ → ℝ) :
    ∀ (ps : List Particle) (created : ℕ),
      (emitGo opts rng ps created).length = ps.length := by
  intro ps
  induction ps with
  | nil => intro created; rfl
  | cons p t ih =>
      intro created
      unfold emitGo
      split
      · simpa using ih (created + 1)
      · simpa using ih created

theorem emitGo_forall2 (opts : ParticleEmitterOptions) (rng : ℕ → ℝ) :
    ∀ (ps : List Particle) (created : ℕ),
      List.Forall₂ (fun p q => p.active = true → q = p) ps (emitGo opts rng ps created) := by
  intro ps
  induction ps with
  | nil => intro created; exact List.Forall₂.nil
  | cons p t ih =>
      intro created
      unfold emitGo
      split
      · rename_i hc
        exact List.Forall₂.cons (fun hact => absurd hact (by simp [hc.2])) (ih (created + 1))
      · exact List.Forall₂.cons (fun _ => rfl) (ih created)

theorem emitGo_activeCount (opts : ParticleEmitterOptions) (rng : ℕ → ℝ) :
    ∀ (ps : List Particle) (created : ℕ),
      activeCount (emitGo opts rng ps created) =
        activeCount ps + min (opts.count - created) (inactiveCount ps) := by
  intro ps
  induction ps with
  | nil =>
      intro created
      simp [emitGo, activeCount, inactiveCount]
  | cons p t ih =>
      intro created
      unfold emitGo
      by_cases hc : created < opts.count ∧ p.active = false
      · rw [if_pos hc]
        have hrec := ih (created + 1)
        have hlt : created < opts.count := hc.1
        simp [activeCount, inactiveCount, List.filter_cons, hc.2, initParticle_active]
          at hrec ⊢
        omega
      · rw [if_neg hc]
        have hrec := ih created
        cases hpa : p.active with
        | true =>
            simp [activeCount, inactiveCount, List.filter_cons, hpa] at hrec ⊢
            omega
        | false =>
            have hno : ¬ created < opts.count := fun hlt => hc ⟨hlt, hpa⟩
            simp [activeCount, inactiveCount, List.filter_cons, hpa] at hrec ⊢
            omega

theorem forall2_all_active_eq :
    ∀ (l l' : List Particle),
      List.Forall₂ (fun p q => p.active = true → q = p) l l' →
      (∀ p ∈ l, p.active = true) → l' = l := by
  intro l
  induction l with
  | nil =>
      intro l' hall _
      cases hall
      rfl
  | cons p t ih =>
      intro l' hall hact
      cases hall with
      | cons hpq hrest =>
          rename_i q t'
          have hq : q = p := hpq (hact p (List.mem_cons_self _ _))
          have ht : t' = t := ih _ hrest (fun r hr => hact r (List.mem_cons_of_mem _ hr))
          rw [hq, ht]

/-- C9: for every `emit(request)` on the particle pool, exactly
`min(request.count, number of inactive slots)` particles are activated
(third conjunct), every currently active slot is left completely unmodified —
in particular never deactivated — (second conjunct, pointwise), the pool size
never changes (first conjunct), and when the pool is full
(`inactiveCount pool = 0`) the call silently activates zero particles and the
pool is returned unchanged (fourth conjunct): no error path exists, `emit` is
a total function. -/
theorem particle_emit_spec (pool : List Particle) (opts : ParticleEmitterOptions)
    (rng : ℕ → ℝ) :
    (ParticleSystem.emit pool opts rng).length = pool.length ∧
    List.Forall₂ (fun p q => p.active = true → q = p) pool
      (ParticleSystem.emit pool opts rng) ∧
    activeCount (ParticleSystem.emit pool opts rng) =
      activeCount pool + min opts.count (inactiveCount pool) ∧
    (inactiveCount pool = 0 → ParticleSystem.emit pool opts rng = pool) := by
  refine ⟨emitGo_length opts rng pool 0, emitGo_forall2 opts rng pool 0,
    by simpa using emitGo_activeCount opts rng pool 0, ?_⟩
  intro hfull
  have hact : ∀ p ∈ pool, p.active = true := by
    intro p hp
    cases hpa : p.active with
    | true => rfl
    | false =>
        exfalso
        unfold inactiveCount at hfull
        rw [List.length_eq_zero, List.filter_eq_nil_iff] at hfull
        exact absurd (by simp [hpa]) (hfull p hp)
  exact forall2_all_active_eq pool _ (emitGo_forall2 opts rng pool 0) hact

/-- A concrete two-slot pool: slot 0 active, slot 1 inactive. -/
noncomputable def poolEx : List Particle :=
  [{ active := true, position := (0, 0, 0), velocity := (0, 0, 0), life := 1,
     maxLife := 1, size := 1, startSize := 1, endSize := 0, color := (1, 1, 1),
     startColor := (1, 1, 1), endColor := (1, 1, 1), rotation := 0, rotationSpeed := 0 },
   { active := false, position := (0, 0, 0), velocity := (0, 0, 0), life := 0,
     maxLife := 1, size := 1, startSize := 1, endSize := 0, color := (1, 1, 1),
     startColor := (1, 1, 1), endColor := (1, 1, 1), rotation := 0, rotationSpeed := 0 }]

noncomputable def emitOptsEx : ParticleEmitterOptions :=
  { position := (0, 0, 0), count := 3, color := (1, 1, 1), velocity := (0, 1, 0),
    velocityRandomness := 1, size := (0.5, 1.5), life := (0.5, 1), rotationSpeed := (-1, 1) }

theorem particle_emit_spec_witness :
    (ParticleSystem.emit poolEx emitOptsEx (fun _ => 0)).length = poolEx.length ∧
    List.Forall₂ (fun p q => p.active = true → q = p) poolEx
      (ParticleSystem.emit poolEx emitOptsEx (fun _ => 0)) ∧
    activeCount (ParticleSystem.emit poolEx emitOptsEx (fun _ => 0)) =
      activeCount poolEx + min emitOptsEx.count (inactiveCount poolEx) ∧
    (inactiveCount poolEx = 0 →
      ParticleSystem.emit poolEx emitOptsEx (fun _ => 0) = poolEx) :=
  particle_emit_spec poolEx emitOptsEx (fun _ => 0)

/-! ### Bird flight AI — the SITTING case of the per-frame switch

Per frame every bird first has its `stateTimer` decremented by `delta`; a
sitting bird then (1) force-returns if it drifted more than 1.5 units from its
expected perch (tree world position + landing spot, raised by 0.2 when
nesting), else (2) on timer expiry draws a flight mode: `< 0.5` Circling,
`< 0.85` Exploring, otherwise Swooping; else (3) stays put (the remaining
source branch only plays an occasional chirp sound).  `Math.random()` draws of
the frame are modelled by `rng 0` (the mode draw) and `rng 1 …` in call
order. -/

inductive BirdFlightState | SITTING | FLYING
deriving DecidableEq, Repr

inductive FlightMode | NONE | CIRCLING | EXPLORING | SWOOPING | RETURNING
deriving DecidableEq, Repr

inductive SwoopPhase | DIVE | PULL_UP
deriving DecidableEq, Repr

noncomputable def distanceTo (a b : ℝ × ℝ × ℝ) : ℝ :=
  Real.sqrt ((a.1 - b.1) ^ 2 + (a.2.1 - b.2.1) ^ 2 + (a.2.2 - b.2.2) ^ 2)

structure BirdData where
  pos : ℝ × ℝ × ℝ
  state : BirdFlightState
  flightMode : FlightMode
  stateTimer : ℝ
  landingSpot : ℝ × ℝ × ℝ
  hasNest : Bool
  circleAngle : ℝ
  circleRadius : ℝ
  circleAltitude : ℝ
  swoopTarget : ℝ × ℝ × ℝ
  swoopPhase : SwoopPhase

/-- The expected perch of a sitting bird: tree world position plus landing
spot, `y` raised by 0.2 when the bird has a nest. -/
noncomputable def birdExpectedPerch (b : BirdData) (treeWorldPos : ℝ × ℝ × ℝ) :
    ℝ × ℝ × ℝ :=
  let e := (treeWorldPos.1 + b.landingSpot.1, treeWorldPos.2.1 + b.landingSpot.2.1,
            treeWorldPos.2.2 + b.landingSpot.2.2)
  if b.hasNest then (e.1, e.2.1 + 0.2, e.2.2) else e

noncomputable def birdSittingStep (b : BirdData) (treeWorldPos : ℝ × ℝ × ℝ)
    (delta : ℝ) (rng : ℕ → ℝ) : BirdData :=
  let timer1 := b.stateTimer - delta
  if distanceTo b.pos (birdExpectedPerch b treeWorldPos) > 1.5 then
    { b with stateTimer := timer1, state := BirdFlightState.FLYING,
             flightMode := FlightMode.RETURNING }
  else if timer1 ≤ 0 then
    let rand := rng 0
    if rand < 0.5 then
      { b with state := BirdFlightState.FLYING, flightMode := FlightMode.CIRCLING,
               stateTimer := rng 1 * 8 + 8,
               circleAngle := rng 2 * (Real.pi * 2),
               circleRadius := rng 3 * 10 + 10,
               circleAltitude := rng 4 * 5 + 5 }
    else if rand < 0.85 then
      { b with state := BirdFlightState.FLYING, flightMode := FlightMode.EXPLORING,
               stateTimer := rng 1 * 10 + 15 }
    else
      { b with state := BirdFlightState.FLYING, flightMode := FlightMode.SWOOPING,
               stateTimer := timer1,
               swoopTarget := (treeWorldPos.1 + (rng 1 - 0.5) * 20,
                               treeWorldPos.2.1 - 1,
                               treeWorldPos.2.2 + (rng 2 - 0.5) * 20),
               swoopPhase := SwoopPhase.DIVE }
  else
    { b with stateTimer := timer1 }

/-- C5: per-frame behaviour of a SITTING bird.  (1) drifting more than 1.5
units from the expected perch force-transitions to `Flying{Returning}`;
otherwise (2) on `stateTimer` expiry the bird transitions to `Flying` by
weighted draw — draw < 0.5 (50%): Circling with new timer in [8,16), radius in
[10,20), altitude in [5,10); 0.5 ≤ draw < 0.85 (35%): Exploring with timer in
[15,25); draw ≥ 0.85 (15%): Swooping with phase `DIVE` and a dive target
within ±10 of the home tree horizontally at one unit below the tree origin. -/
theorem bird_sitting_transitions (b : BirdData) (tree : ℝ × ℝ × ℝ) (delta : ℝ)
    (rng : ℕ → ℝ)
    (h0 : 0 ≤ rng 0 ∧ rng 0 < 1) (h1 : 0 ≤ rng 1 ∧ rng 1 < 1)
    (h2 : 0 ≤ rng 2 ∧ rng 2 < 1) (h3 : 0 ≤ rng 3 ∧ rng 3 < 1)
    (h4 : 0 ≤ rng 4 ∧ rng 4 < 1) :
    (distanceTo b.pos (birdExpectedPerch b tree) > 1.5 →
      (birdSittingStep b tree delta rng).state = BirdFlightState.FLYING ∧
      (birdSittingStep b tree delta rng).flightMode = FlightMode.RETURNING) ∧
    (¬ distanceTo b.pos (birdExpectedPerch b tree) > 1.5 →
      b.stateTimer - delta ≤ 0 →
      (birdSittingStep b tree delta rng).state = BirdFlightState.FLYING ∧
      (rng 0 < 0.5 →
        (birdSittingStep b tree delta rng).flightMode = FlightMode.CIRCLING ∧
        8 ≤ (birdSittingStep b tree delta rng).stateTimer ∧
        (birdSittingStep b tree delta rng).stateTimer < 16 ∧
        10 ≤ (birdSittingStep b tree delta rng).circleRadius ∧
        (birdSittingStep b tree delta rng).circleRadius < 20 ∧
        5 ≤ (birdSittingStep b tree delta rng).circleAltitude ∧
        (birdSittingStep b tree delta rng).circleAltitude < 10) ∧
      (0.5 ≤ rng 0 → rng 0 < 0.85 →
        (birdSittingStep b tree delta rng).flightMode = FlightMode.EXPLORING ∧
        15 ≤ (birdSittingStep b tree delta rng).stateTimer ∧
        (birdSittingStep b tree delta rng).stateTimer < 25) ∧
      (0.85 ≤ rng 0 →
        (birdSittingStep b tree delta rng).flightMode = FlightMode.SWOOPING ∧
        (birdSittingStep b tree delta rng).swoopPhase = SwoopPhase.DIVE ∧
        |(birdSittingStep b tree delta rng).swoopTarget.1 - tree.1| ≤ 10 ∧
        (birdSittingStep b tree delta rng).swoopTarget.2.1 = tree.2.1 - 1 ∧
        |(birdSittingStep b tree delta rng).swoopTarget.2.2 - tree.2.2| ≤ 10)) := by
  constructor
  · intro hdrift
    unfold birdSittingStep
    rw [if_pos hdrift]
    exact ⟨rfl, rfl⟩
  · intro hdrift hexp
    unfold birdSittingStep
    rw [if_neg hdrift, if_pos hexp]
    dsimp only
    by_cases hr5 : rng 0 < 0.5
    · rw [if_pos hr5]
      refine ⟨rfl, fun _ => ?_, fun hge _ => absurd hr5 (not_lt.mpr hge),
        fun hge => absurd hr5 (not_lt.mpr (le_trans (by norm_num) hge))⟩
      refine ⟨rfl, ?_, ?_, ?_, ?_, ?_, ?_⟩ <;> dsimp only <;>
        linarith [h1.1, h1.2, h3.1, h3.2, h4.1, h4.2]
    · rw [if_neg hr5]
      by_cases hr85 : rng 0 < 0.85
      · rw [if_pos hr85]
        refine ⟨rfl, fun hlt => absurd hlt hr5, fun _ _ => ?_,
          fun hge => absurd hr85 (not_lt.mpr hge)⟩
        refine ⟨rfl, ?_, ?_⟩ <;> dsimp only <;> linarith [h1.1, h1.2]
      · rw [if_neg hr85]
        refine ⟨rfl, fun hlt => absurd hlt hr5, fun _ hlt => absurd hlt hr85,
          fun _ => ?_⟩
        refine ⟨rfl, rfl, ?_, rfl, ?_⟩ <;> dsimp only <;> rw [abs_le]
        · exact ⟨by linarith [h1.1], by linarith [h1.2]⟩
        · exact ⟨by linarith [h2.1], by linarith [h2.2]⟩

/-- A concrete sitting bird resting exactly on its expected perch, with an
expired timer; the draw stream returns 0, selecting the Circling branch. -/
noncomputable def sittingBirdEx : BirdData :=
  { pos := (3, 4, 5), state := BirdFlightState.SITTING, flightMode := FlightMode.NONE,
    stateTimer := 0.5, landingSpot := (1, 2, 2), hasNest := false,
    circleAngle := 0, circleRadius := 0, circleAltitude := 0,
    swoopTarget := (0, 0, 0), swoopPhase := SwoopPhase.DIVE }

theorem bird_sitting_transitions_witness :
    ((0:ℝ) ≤ 0 ∧ (0:ℝ) < 1) ∧
    (¬ distanceTo sittingBirdEx.pos (birdExpectedPerch sittingBirdEx (2, 2, 3)) > 1.5 →
      sittingBirdEx.stateTimer - 1 ≤ 0 →
      (birdSittingStep sittingBirdEx (2, 2, 3) 1 (fun _ => 0)).state =
        BirdFlightState.FLYING ∧
      ((0:ℝ) < 0.5 →
        (birdSittingStep sittingBirdEx (2, 2, 3) 1 (fun _ => 0)).flightMode =
          FlightMode.CIRCLING ∧
        8 ≤ (birdSittingStep sittingBirdEx (2, 2, 3) 1 (fun _ => 0)).stateTimer ∧
        (birdSittingStep sittingBirdEx (2, 2, 3) 1 (fun _ => 0)).stateTimer < 16 ∧
        10 ≤ (birdSittingStep sittingBirdEx (2, 2, 3) 1 (fun _ => 0)).circleRadius ∧
        (birdSittingStep sittingBirdEx (2, 2, 3) 1 (fun _ => 0)).circleRadius < 20 ∧
        5 ≤ (birdSittingStep sittingBirdEx (2, 2, 3) 1 (fun _ => 0)).circleAltitude ∧
        (birdSittingStep sittingBirdEx (2, 2, 3) 1 (fun _ => 0)).circleAltitude < 10) ∧
      ((0.5:ℝ) ≤ 0 → (0:ℝ) < 0.85 →
        (birdSittingStep sittingBirdEx (2, 2, 3) 1 (fun _ => 0)).flightMode =
          FlightMode.EXPLORING ∧
        15 ≤ (birdSittingStep sittingBirdEx (2, 2, 3) 1 (fun _ => 0)).stateTimer ∧
        (birdSittingStep sittingBirdEx (2, 2, 3) 1 (fun _ => 0)).stateTimer < 25) ∧
      ((0.85:ℝ) ≤ 0 →
        (birdSittingStep sittingBirdEx (2, 2, 3) 1 (fun _ => 0)).flightMode =
          FlightMode.SWOOPING ∧
        (birdSittingStep sittingBirdEx (2, 2, 3) 1 (fun _ => 0)).swoopPhase =
          SwoopPhase.DIVE ∧
        |(birdSittingStep sittingBirdEx (2, 2, 3) 1 (fun _ => 0)).swoopTarget.1 - 2| ≤ 10 ∧
        (birdSittingStep sittingBirdEx (2, 2, 3) 1 (fun _ => 0)).swoopTarget.2.1 = 2 - 1 ∧
        |(birdSittingStep sittingBirdEx (2, 2, 3) 1 (fun _ => 0)).swoopTarget.2.2 - 3| ≤ 10)) :=
  ⟨by norm_num,
    (bird_sitting_transitions sittingBirdEx (2, 2, 3) 1 (fun _ => 0)
      (by norm_num) (by norm_num) (by norm_num) (by norm_num) (by norm_num)).2⟩

/-! ### Villager routine AI (animate loop, villager state machine)

One frame of the villager routine, in source order: timer decrement; (physics,
modelled separately above); night forces `GOING_HOME`; day wakes a sleeper;
player-proximity override (save `prevState`, look at player; on release resume
`prevState || 'IDLE'` with a fresh short timer); the daytime timer block; and
the state-actions switch (straight-line movement with arrival transitions,
sleeping containment).  `nearPlayer` stands for
`distanceToPlayer < VILLAGER_INTERACTION_RADIUS` (the player position is an
external input); yaw rotation and limb animation are renderer-only and
omitted.  `Math.random()` draws are `f.rng 0 …` with one fixed index per call
site. -/

inductive Profession | farmer | librarian | blacksmith | nitwit
deriving DecidableEq, Repr

structure VillagerAI where
  state : VState
  prevState : Option VState
  stateTimer : ℝ
  targetPosition : Option (ℝ × ℝ)
  pos : ℝ × ℝ
  homePoint : ℝ × ℝ
  workPoint : Option (ℝ × ℝ)
  profession : Profession

structure VillagerFrameInput where
  delta : ℝ
  timeOfDay : ℝ
  nearPlayer : Bool
  rng : ℕ → ℝ

/-- `timeOfDay > 0.28 && timeOfDay < 0.76` -/
def isDayTime (t : ℝ) : Prop := 0.28 < t ∧ t < 0.76

noncomputable instance (t : ℝ) : Decidable (isDayTime t) := by
  unfold isDayTime; infer_instance

/-- `data.stateTimer -= delta` -/
noncomputable def vTimerDec (delta : ℝ) (v : VillagerAI) : VillagerAI :=
  { v with stateTimer := v.stateTimer - delta }

/-- Night gating: outside the day window any non-Sleeping/GoingHome villager
is forced into `GOING_HOME` with the home point as target. -/
noncomputable def vNightGate (t : ℝ) (v : VillagerAI) : VillagerAI :=
  if ¬ isDayTime t ∧ v.state ≠ VState.SLEEPING ∧ v.state ≠ VState.GOING_HOME then
    { v with state := VState.GOING_HOME, targetPosition := some v.homePoint }
  else v

/-- At day start a `SLEEPING` villager becomes `IDLE` with a fresh timer. -/
noncomputable def vDayWake (t : ℝ) (r0 : ℝ) (v : VillagerAI) : VillagerAI :=
  if isDayTime t ∧ v.state = VState.SLEEPING then
    { v with state := VState.IDLE, stateTimer := r0 * 5 + 3 }
  else v

/-- Player-proximity override: entering the radius saves the current state as
`prevState`, clears the target and enters `LOOKING_AT_PLAYER`; leaving the
radius resumes `prevState || 'IDLE'` with a fresh timer `r1*2+1`. -/
noncomputable def vProximity (near : Bool) (r1 : ℝ) (v : VillagerAI) : VillagerAI :=
  if near = true ∧ v.state ≠ VState.LOOKING_AT_PLAYER then
    { v with prevState := some v.state, state := VState.LOOKING_AT_PLAYER,
             targetPosition := none }
  else if near = false ∧ v.state = VState.LOOKING_AT_PLAYER then
    { v with state := v.prevState.getD VState.IDLE, stateTimer := r1 * 2 + 1 }
  else v

/-- Daytime timer block: from `IDLE`/`WANDERING` a farmer with a work point
has a 50% chance to head to work, otherwise the villager wanders to a random
nearby target with a distance-proportional timer; from any other state the
villager resets to `IDLE`. -/
noncomputable def vTimerBlock (t : ℝ) (r2 r3 r4 r5 r6 : ℝ) (v : VillagerAI) :
    VillagerAI :=
  if v.stateTimer ≤ 0 ∧ isDayTime t then
    if v.state = VState.IDLE ∨ v.state = VState.WANDERING then
      if v.profession = Profession.farmer ∧ v.workPoint.isSome ∧ r2 < 0.5 then
        { v with state := VState.GOING_TO_WORK, targetPosition := v.workPoint }
      else
        let angle := r3 * (Real.pi * 2)
        let wanderDist := r4 * 10 + 5
        { v with state := VState.WANDERING,
                 targetPosition := some (v.pos.1 + Real.cos angle * wanderDist,
                                         v.pos.2 + Real.sin angle * wanderDist),
                 stateTimer := wanderDist / 1.5 + r5 * 2 }
    else
      { v with state := VState.IDLE, stateTimer := r6 * 8 + 5 }
  else v

/-- State-actions switch: movement states steer straight toward the target at
speed 1.5 and transition on arrival (`lengthSq ≤ 1`): GoingHome→Sleeping,
GoingToWork→Working, Wandering→Idle; `SLEEPING` eases the position toward the
home point.  (Yaw rotation and limb animation are renderer-only and omitted.) -/
noncomputable def vStateActions (delta : ℝ) (r7 r8 : ℝ) (v : VillagerAI) :
    VillagerAI :=
  if v.state = VState.GOING_HOME ∨ v.state = VState.GOING_TO_WORK ∨
      v.state = VState.WANDERING then
    match v.targetPosition with
    | some t =>
        let dx := t.1 - v.pos.1
        let dz := t.2 - v.pos.2
        if dx ^ 2 + dz ^ 2 > 1 then
          let len := Real.sqrt (dx ^ 2 + dz ^ 2)
          { v with pos := (v.pos.1 + dx / len * 1.5 * delta,
                           v.pos.2 + dz / len * 1.5 * delta) }
        else
          let v := { v with targetPosition := none }
          if v.state = VState.GOING_HOME then
            { v with state := VState.SLEEPING }
          else if v.state = VState.GOING_TO_WORK then
            { v with state := VState.WORKING, stateTimer := r7 * 10 + 10 }
          else
            { v with state := VState.IDLE, stateTimer := r8 * 5 + 3 }
    | none => v
  else if v.state = VState.SLEEPING then
    { v with pos := (v.pos.1 + (v.homePoint.1 - v.pos.1) * delta,
                     v.pos.2 + (v.homePoint.2 - v.pos.2) * delta) }
  else v

/-- One frame of the villager routine: the stages above in source order. -/
noncomputable def villagerRoutineStep (v : VillagerAI) (f : VillagerFrameInput) :
    VillagerAI :=
  vStateActions f.delta (f.rng 7) (f.rng 8)
    (vTimerBlock f.timeOfDay (f.rng 2) (f.rng 3) (f.rng 4) (f.rng 5) (f.rng 6)
      (vProximity f.nearPlayer (f.rng 1)
        (vDayWake f.timeOfDay (f.rng 0)
          (vNightGate f.timeOfDay
            (vTimerDec f.delta v)))))

noncomputable def villagerRun (v : VillagerAI) (fs : List VillagerFrameInput) :
    VillagerAI :=
  fs.foldl villagerRoutineStep v

theorem vNightGate_day (t : ℝ) (v : VillagerAI) (h : isDayTime t) :
    vNightGate t v = v := by
  unfold vNightGate
  exact if_neg fun hc => hc.1 h

theorem vDayWake_awake (t r0 : ℝ) (v : VillagerAI) (h : v.state ≠ VState.SLEEPING) :
    vDayWake t r0 v = v := by
  unfold vDayWake
  exact if_neg fun hc => h hc.2

theorem vProximity_engage (r1 : ℝ) (v : VillagerAI)
    (h : v.state ≠ VState.LOOKING_AT_PLAYER) :
    vProximity true r1 v =
      { v with prevState := some v.state, state := VState.LOOKING_AT_PLAYER,
               targetPosition := none } := by
  unfold vProximity
  exact if_pos ⟨rfl, h⟩

theorem vProximity_hold (r1 : ℝ) (v : VillagerAI)
    (h : v.state = VState.LOOKING_AT_PLAYER) :
    vProximity true r1 v = v := by
  unfold vProximity
  rw [if_neg fun hc => hc.2 h, if_neg fun hc => by simpa using hc.1]

theorem vProximity_release (r1 : ℝ) (v : VillagerAI)
    (h : v.state = VState.LOOKING_AT_PLAYER) :
    vProximity false r1 v =
      { v with state := v.prevState.getD VState.IDLE,
               stateTimer := r1 * 2 + 1 } := by
  unfold vProximity
  rw [if_neg fun hc => by simpa using hc.1, if_pos ⟨rfl, h⟩]

theorem vProximity_far (r1 : ℝ) (v : VillagerAI)
    (h : v.state ≠ VState.LOOKING_AT_PLAYER) :
    vProximity false r1 v = v := by
  unfold vProximity
  rw [if_neg fun hc => by simpa using hc.1, if_neg fun hc => h hc.2]

theorem vTimerBlock_skip (t r2 r3 r4 r5 r6 : ℝ) (v : VillagerAI)
    (h : 0 < v.stateTimer) :
    vTimerBlock t r2 r3 r4 r5 r6 v = v := by
  unfold vTimerBlock
  exact if_neg fun hc => absurd hc.1 (not_le.mpr h)

theorem vTimerBlock_reset (t r2 r3 r4 r5 r6 : ℝ) (v : VillagerAI)
    (h1 : v.stateTimer ≤ 0) (h2 : isDayTime t)
    (h3 : v.state ≠ VState.IDLE) (h4 : v.state ≠ VState.WANDERING) :
    vTimerBlock t r2 r3 r4 r5 r6 v =
      { v with state := VState.IDLE, stateTimer := r6 * 8 + 5 } := by
  unfold vTimerBlock
  rw [if_pos ⟨h1, h2⟩, if_neg fun hc => hc.elim h3 h4]

theorem vStateActions_stay (delta r7 r8 : ℝ) (v : VillagerAI)
    (h1 : ¬(v.state = VState.GOING_HOME ∨ v.state = VState.GOING_TO_WORK ∨
      v.state = VState.WANDERING))
    (h2 : v.state ≠ VState.SLEEPING) :
    vStateActions delta r7 r8 v = v := by
  unfold vStateActions
  rw [if_neg h1, if_neg h2]

theorem vStateActions_noTarget (delta r7 r8 : ℝ) (v : VillagerAI)
    (hmv : v.state = VState.GOING_HOME ∨ v.state = VState.GOING_TO_WORK ∨
      v.state = VState.WANDERING)
    (h : v.targetPosition = none) :
    vStateActions delta r7 r8 v = v := by
  unfold vStateActions
  rw [if_pos hmv, h]

/-- A daytime frame with the player inside (or outside) the interaction radius
and every random draw equal to 0. -/
noncomputable def c4frame (near : Bool) : VillagerFrameInput :=
  { delta := 1, timeOfDay := 0.5, nearPlayer := near, rng := fun _ => 0 }

/-- A wandering villager whose state timer is nearly spent. -/
noncomputable def c4villager : VillagerAI :=
  { state := VState.WANDERING, prevState := none, stateTimer := 0.5,
    targetPosition := some (10, 10), pos := (0, 0), homePoint := (0, 0),
    workPoint := none, profession := Profession.nitwit }

theorem c4frame1_eval : villagerRoutineStep c4villager (c4frame true) =
    { state := VState.IDLE, prevState := some VState.WANDERING,
      stateTimer := (0:ℝ) * 8 + 5, targetPosition := none, pos := (0, 0),
      homePoint := (0, 0), workPoint := none,
      profession := Profession.nitwit } := by
  show vStateActions 1 0 0 (vTimerBlock 0.5 0 0 0 0 0 (vProximity true 0
      (vDayWake 0.5 0 (vNightGate 0.5 (vTimerDec 1 c4villager))))) = _
  have e1 : vTimerDec 1 c4villager =
      { state := VState.WANDERING, prevState := none, stateTimer := 0.5 - 1,
        targetPosition := some (10, 10), pos := (0, 0), homePoint := (0, 0),
        workPoint := none, profession := Profession.nitwit } := rfl
  rw [e1, vNightGate_day _ _ (by norm_num [isDayTime]),
    vDayWake_awake _ _ _ (by decide),
    vProximity_engage _ _ (by decide),
    vTimerBlock_reset _ _ _ _ _ _ _ (by show (0.5:ℝ) - 1 ≤ 0; norm_num)
      (by norm_num [isDayTime]) (by decide) (by decide),
    vStateActions_stay _ _ _ _ (by decide) (by decide)]

theorem c4frame2_eval : villagerRoutineStep
    { state := VState.IDLE, prevState := some VState.WANDERING,
      stateTimer := (0:ℝ) * 8 + 5, targetPosition := none, pos := (0, 0),
      homePoint := (0, 0), workPoint := none, profession := Profession.nitwit }
    (c4frame true) =
    { state := VState.LOOKING_AT_PLAYER, prevState := some VState.IDLE,
      stateTimer := (0:ℝ) * 8 + 5 - 1, targetPosition := none, pos := (0, 0),
      homePoint := (0, 0), workPoint := none,
      profession := Profession.nitwit } := by
  show vStateActions 1 0 0 (vTimerBlock 0.5 0 0 0 0 0 (vProximity true 0
      (vDayWake 0.5 0 (vNightGate 0.5 (vTimerDec 1 _))))) = _
  have e1 : vTimerDec 1
      { state := VState.IDLE, prevState := some VState.WANDERING,
        stateTimer := (0:ℝ) * 8 + 5, targetPosition := none, pos := (0, 0),
        homePoint := (0, 0), workPoint := none,
        profession := Profession.nitwit } =
      { state := VState.IDLE, prevState := some VState.WANDERING,
        stateTimer := (0:ℝ) * 8 + 5 - 1, targetPosition := none, pos := (0, 0),
        homePoint := (0, 0), workPoint := none,
        profession := Profession.nitwit } := rfl
  rw [e1, vNightGate_day _ _ (by norm_num [isDayTime]),
    vDayWake_awake _ _ _ (by decide),
    vProximity_engage _ _ (by decide),
    vTimerBlock_skip _ _ _ _ _ _ _ (by show (0:ℝ) < 0 * 8 + 5 - 1; norm_num),
    vStateActions_stay _ _ _ _ (by decide) (by decide)]

theorem c4frame3_eval : villagerRoutineStep
    { state := VState.LOOKING_AT_PLAYER, prevState := some VState.IDLE,
      stateTimer := (0:ℝ) * 8 + 5 - 1, targetPosition := none, pos := (0, 0),
      homePoint := (0, 0), workPoint := none, profession := Profession.nitwit }
    (c4frame false) =
    { state := VState.IDLE, prevState := some VState.IDLE,
      stateTimer := (0:ℝ) * 2 + 1, targetPosition := none, pos := (0, 0),
      homePoint := (0, 0), workPoint := none,
      profession := Profession.nitwit } := by
  show vStateActions 1 0 0 (vTimerBlock 0.5 0 0 0 0 0 (vProximity false 0
      (vDayWake 0.5 0 (vNightGate 0.5 (vTimerDec 1 _))))) = _
  have e1 : vTimerDec 1
      { state := VState.LOOKING_AT_PLAYER, prevState := some VState.IDLE,
        stateTimer := (0:ℝ) * 8 + 5 - 1, targetPosition := none, pos := (0, 0),
        homePoint := (0, 0), workPoint := none,
        profession := Profession.nitwit } =
      { state := VState.LOOKING_AT_PLAYER, prevState := some VState.IDLE,
        stateTimer := (0:ℝ) * 8 + 5 - 1 - 1, targetPosition := none, pos := (0, 0),
        homePoint := (0, 0), workPoint := none,
        profession := Profession.nitwit } := rfl
  rw [e1, vNightGate_day _ _ (by norm_num [isDayTime]),
    vDayWake_awake _ _ _ (by decide),
    vProximity_release _ _ (by decide),
    vTimerBlock_skip _ _ _ _ _ _ _ (by show (0:ℝ) < 0 * 2 + 1; norm_num),
    vStateActions_stay _ _ _ _ (by decide) (by decide)]
  rfl

/-- C4 counterexample: a villager in `WANDERING` is interrupted by
`LOOKING_AT_PLAYER`; because the player lingers inside the radius past the
villager's timer expiry, the daytime timer block resets the looking villager to
`IDLE`, and the next frame re-saves `prevState := IDLE`; when the player then
leaves, the villager resumes `IDLE`, not the originally saved `WANDERING` —
refuting "the villager's state becomes WANDERING again …, never IDLE". -/
theorem villager_interaction_reset_counterexample :
    c4villager.state = VState.WANDERING ∧
    (c4frame true).nearPlayer = true ∧ (c4frame false).nearPlayer = false ∧
    (villagerRun c4villager [c4frame true, c4frame true, c4frame false]).state =
      VState.IDLE := by
  refine ⟨rfl, rfl, rfl, ?_⟩
  show (villagerRoutineStep (villagerRoutineStep (villagerRoutineStep c4villager
      (c4frame true)) (c4frame true)) (c4frame false)).state = VState.IDLE
  rw [c4frame1_eval, c4frame2_eval, c4frame3_eval]

theorem wandering_interrupt (v : VillagerAI) (f : VillagerFrameInput)
    (hst : v.state = VState.WANDERING) (hday : isDayTime f.timeOfDay)
    (hnear : f.nearPlayer = true) (ht : 0 < v.stateTimer - f.delta) :
    villagerRoutineStep v f =
      { v with state := VState.LOOKING_AT_PLAYER,
               prevState := some VState.WANDERING, targetPosition := none,
               stateTimer := v.stateTimer - f.delta } := by
  obtain ⟨s, p, tau, tg, po, hp, wp, pr⟩ := v
  dsimp only at hst ht ⊢
  subst hst
  unfold villagerRoutineStep vTimerDec
  dsimp only
  rw [hnear, vNightGate_day f.timeOfDay _ hday,
    vDayWake_awake f.timeOfDay (f.rng 0)
      ⟨VState.WANDERING, p, tau - f.delta, tg, po, hp, wp, pr⟩ (by dsimp only; decide),
    vProximity_engage (f.rng 1)
      ⟨VState.WANDERING, p, tau - f.delta, tg, po, hp, wp, pr⟩ (by dsimp only; decide)]
  dsimp only
  rw [vTimerBlock_skip f.timeOfDay (f.rng 2) (f.rng 3) (f.rng 4) (f.rng 5) (f.rng 6)
      ⟨VState.LOOKING_AT_PLAYER, some VState.WANDERING, tau - f.delta, none, po, hp, wp, pr⟩
      (by dsimp only; exact ht),
    vStateActions_stay f.delta (f.rng 7) (f.rng 8)
      ⟨VState.LOOKING_AT_PLAYER, some VState.WANDERING, tau - f.delta, none, po, hp, wp, pr⟩
      (by dsimp only; decide) (by dsimp only; decide)]

theorem looking_frame_noop (v : VillagerAI) (f : VillagerFrameInput)
    (hst : v.state = VState.LOOKING_AT_PLAYER) (hday : isDayTime f.timeOfDay)
    (hnear : f.nearPlayer = true) (ht : 0 < v.stateTimer - f.delta) :
    villagerRoutineStep v f = { v with stateTimer := v.stateTimer - f.delta } := by
  obtain ⟨s, p, tau, tg, po, hp, wp, pr⟩ := v
  dsimp only at hst ht ⊢
  subst hst
  unfold villagerRoutineStep vTimerDec
  dsimp only
  rw [hnear, vNightGate_day f.timeOfDay _ hday,
    vDayWake_awake f.timeOfDay (f.rng 0)
      ⟨VState.LOOKING_AT_PLAYER, p, tau - f.delta, tg, po, hp, wp, pr⟩ (by dsimp only; decide),
    vProximity_hold (f.rng 1)
      ⟨VState.LOOKING_AT_PLAYER, p, tau - f.delta, tg, po, hp, wp, pr⟩ rfl,
    vTimerBlock_skip f.timeOfDay (f.rng 2) (f.rng 3) (f.rng 4) (f.rng 5) (f.rng 6)
      ⟨VState.LOOKING_AT_PLAYER, p, tau - f.delta, tg, po, hp, wp, pr⟩
      (by dsimp only; exact ht),
    vStateActions_stay f.delta (f.rng 7) (f.rng 8)
      ⟨VState.LOOKING_AT_PLAYER, p, tau - f.delta, tg, po, hp, wp, pr⟩
      (by dsimp only; decide) (by dsimp only; decide)]

theorem looking_release (v : VillagerAI) (f : VillagerFrameInput)
    (hst : v.state = VState.LOOKING_AT_PLAYER)
    (hprev : v.prevState = some VState.WANDERING)
    (htgt : v.targetPosition = none)
    (hday : isDayTime f.timeOfDay) (hnear : f.nearPlayer = false)
    (hr : 0 ≤ f.rng 1) :
    villagerRoutineStep v f =
      { v with state := VState.WANDERING, stateTimer := f.rng 1 * 2 + 1 } := by
  obtain ⟨s, p, tau, tg, po, hp, wp, pr⟩ := v
  dsimp only at hst hprev htgt ⊢
  subst hst
  subst hprev
  subst htgt
  unfold villagerRoutineStep vTimerDec
  dsimp only
  rw [hnear, vNightGate_day f.timeOfDay _ hday,
    vDayWake_awake f.timeOfDay (f.rng 0)
      ⟨VState.LOOKING_AT_PLAYER, some VState.WANDERING, tau - f.delta, none, po, hp, wp, pr⟩
      (by dsimp only; decide),
    vProximity_release (f.rng 1)
      ⟨VState.LOOKING_AT_PLAYER, some VState.WANDERING, tau - f.delta, none, po, hp, wp, pr⟩
      rfl]
  dsimp only [Option.getD]
  rw [vTimerBlock_skip f.timeOfDay (f.rng 2) (f.rng 3) (f.rng 4) (f.rng 5) (f.rng 6)
      ⟨VState.WANDERING, some VState.WANDERING, f.rng 1 * 2 + 1, none, po, hp, wp, pr⟩
      (by dsimp only; linarith),
    vStateActions_noTarget f.delta (f.rng 7) (f.rng 8)
      ⟨VState.WANDERING, some VState.WANDERING, f.rng 1 * 2 + 1, none, po, hp, wp, pr⟩
      (by right; right; rfl) rfl]

theorem looking_run_noop (fs : List VillagerFrameInput) :
    ∀ (v : VillagerAI), v.state = VState.LOOKING_AT_PLAYER →
      (∀ f ∈ fs, f.nearPlayer = true ∧ isDayTime f.timeOfDay ∧ 0 ≤ f.delta) →
      0 < v.stateTimer - (fs.map fun f => f.delta).sum →
      villagerRun v fs =
        { v with stateTimer := v.stateTimer - (fs.map fun f => f.delta).sum } := by
  induction fs with
  | nil =>
      intro v hst _ _
      show v = _
      rw [List.map_nil, List.sum_nil, sub_zero]
  | cons f t ih =>
      intro v hst hall htimer
      rw [List.map_cons, List.sum_cons] at htimer
      have hsum : 0 ≤ ((t.map fun f => f.delta).sum) :=
        List.sum_nonneg (by
          intro x hx
          rcases List.mem_map.mp hx with ⟨g, hg, hgx⟩
          exact hgx ▸ (hall g (List.mem_cons_of_mem f hg)).2.2)
      have hf := hall f (List.mem_cons_self f t)
      have ht1 : 0 < v.stateTimer - f.delta := by linarith
      have hstep := looking_frame_noop v f hst hf.2.1 hf.1 ht1
      show villagerRun (villagerRoutineStep v f) t = _
      rw [hstep]
      rw [ih { v with stateTimer := v.stateTimer - f.delta } hst
        (fun g hg => hall g (List.mem_cons_of_mem f hg)) (by dsimp only; linarith)]
      rw [List.map_cons, List.sum_cons]
      dsimp only
      rw [sub_sub]

/-- C4 (amended): a villager in `WANDERING` that enters `LOOKING_AT_PLAYER`
because the player came within the interaction radius resumes exactly
`WANDERING` (the saved prior state) with a fresh short timer
(`Math.random()*2+1`) when the player leaves — provided it stays daytime and
the villager's own state timer does not run out while it is looking (the
counterexample shows the daytime timer block otherwise resets the looking
villager to `IDLE` and overwrites the saved state).  `IDLE` is used on release
only when no prior state was saved or the saved state was lost this way. -/
theorem villager_interaction_resume (v : VillagerAI) (f0 : VillagerFrameInput)
    (fs : List VillagerFrameInput) (g : VillagerFrameInput)
    (hst : v.state = VState.WANDERING)
    (hf0 : f0.nearPlayer = true ∧ isDayTime f0.timeOfDay)
    (hfs : ∀ f ∈ fs, f.nearPlayer = true ∧ isDayTime f.timeOfDay ∧ 0 ≤ f.delta)
    (htimer : 0 < v.stateTimer - f0.delta - (fs.map fun f => f.delta).sum)
    (hg : g.nearPlayer = false ∧ isDayTime g.timeOfDay ∧ 0 ≤ g.rng 1) :
    (villagerRun v (f0 :: (fs ++ [g]))).state = VState.WANDERING ∧
    (villagerRun v (f0 :: (fs ++ [g]))).stateTimer = g.rng 1 * 2 + 1 := by
  have hsum : 0 ≤ ((fs.map fun f => f.delta).sum) :=
    List.sum_nonneg (by
      intro x hx
      rcases List.mem_map.mp hx with ⟨h, hh, hhx⟩
      exact hhx ▸ (hfs h hh).2.2)
  have ht0 : 0 < v.stateTimer - f0.delta := by linarith
  have hrun : villagerRun v (f0 :: (fs ++ [g])) =
      villagerRoutineStep (villagerRun (villagerRoutineStep v f0) fs) g := by
    unfold villagerRun
    rw [List.foldl_cons, List.foldl_append, List.foldl_cons, List.foldl_nil]
  rw [hrun, wandering_interrupt v f0 hst hf0.2 hf0.1 ht0]
  rw [looking_run_noop fs
    { v with state := VState.LOOKING_AT_PLAYER, prevState := some VState.WANDERING,
             targetPosition := none, stateTimer := v.stateTimer - f0.delta }
    rfl hfs (by dsimp only; linarith)]
  dsimp only
  rw [looking_release
    ⟨VState.LOOKING_AT_PLAYER, some VState.WANDERING,
      v.stateTimer - f0.delta - (fs.map fun f => f.delta).sum, none,
      v.pos, v.homePoint, v.workPoint, v.profession⟩
    g rfl rfl rfl hg.2.1 hg.1 hg.2.2]
  exact ⟨rfl, rfl⟩

/-- Concrete instance for the resume theorem: a wandering villager with a
10-second timer, one daytime frame with the player close, then a release
frame. -/
noncomputable def c4resumeVillager : VillagerAI :=
  { state := VState.WANDERING, prevState := none, stateTimer := 10,
    targetPosition := some (5, 5), pos := (0, 0), homePoint := (0, 0),
    workPoint := none, profession := Profession.farmer }

theorem villager_interaction_resume_witness :
    (c4resumeVillager.state = VState.WANDERING ∧
      (c4frame true).nearPlayer = true ∧ isDayTime (c4frame true).timeOfDay ∧
      0 < c4resumeVillager.stateTimer - (c4frame true).delta -
        (([] : List VillagerFrameInput).map fun f => f.delta).sum ∧
      (c4frame false).nearPlayer = false ∧ isDayTime (c4frame false).timeOfDay ∧
      0 ≤ (c4frame false).rng 1) ∧
    (villagerRun c4resumeVillager (c4frame true :: ([] ++ [c4frame false]))).state =
      VState.WANDERING ∧
    (villagerRun c4resumeVillager (c4frame true :: ([] ++ [c4frame false]))).stateTimer =
      (c4frame false).rng 1 * 2 + 1 :=
  ⟨⟨rfl, rfl, by norm_num [c4frame, isDayTime],
      by norm_num [c4frame, c4resumeVillager], rfl,
      by norm_num [c4frame, isDayTime], by norm_num [c4frame]⟩,
    villager_interaction_resume c4resumeVillager (c4frame true) [] (c4frame false)
      rfl ⟨rfl, by norm_num [c4frame, isDayTime]⟩ (by simp)
      (by norm_num [c4frame, c4resumeVillager])
      ⟨rfl, by norm_num [c4frame, isDayTime], by norm_num [c4frame]⟩⟩

/-! ### Decoration sampling and chunk generation (utils.ts `createNoise2D`,
world.ts, and the generation half of `updateWorld`)

Everything that decides decoration counts, decoration positions and structure
placement below is a function of the chunk coordinate only (all draws are
`pseudoRandom` of seeds derived from the coordinates); the `Math.random()`
draws of the generation path (bird velocities/flap offsets/landing-spot picks,
villager spawn angles) appear only in the entity records and are again
modelled by an explicit `rng` stream. -/

/-- `createNoise2D` from utils.ts: a Perlin-style noise built from a
`pseudoRandom`-seeded permutation table (`&255`/`&15`/`&1`/`&2` modelled with
`%`/division on naturals). -/
noncomputable def createNoise2D (seed : ℝ) : ℝ → ℝ → ℝ :=
  let perm : ℕ → ℕ := fun i => (⌊pseudoRandom (seed + i * 1.1) * 256⌋).toNat
  let p : ℕ → ℕ := fun k => perm (k % 256)
  let fade : ℝ → ℝ := fun t => t * t * t * (t * (t * 6 - 15) + 10)
  let lerp : ℝ → ℝ → ℝ → ℝ := fun t a b => a + t * (b - a)
  let grad : ℕ → ℝ → ℝ → ℝ := fun hash gx gy =>
    let h := hash % 16
    let u := if h < 8 then gx else gy
    let v := if h < 8 then gy else gx
    (if h % 2 = 0 then u else -u) + (if h / 2 % 2 = 0 then v else -v)
  fun fx fy =>
    let X := (⌊fx⌋ % 256).toNat
    let Y := (⌊fy⌋ % 256).toNat
    let xf := fx - ⌊fx⌋
    let yf := fy - ⌊fy⌋
    let u := fade xf
    let v := fade yf
    let aa := p (p X + Y)
    let ab := p (p X + Y + 1)
    let ba := p (p (X + 1) + Y)
    let bb := p (p (X + 1) + Y + 1)
    lerp v (lerp u (grad (p aa) xf yf) (grad (p ba) (xf - 1) yf))
           (lerp u (grad (p ab) xf (yf - 1)) (grad (p bb) (xf - 1) (yf - 1)))

/-- `floraNoise = createNoise2D(12345)` — a fixed seed, so the noise field is
the same in every session. -/
noncomputable def floraNoise : ℝ → ℝ → ℝ := createNoise2D 12345

/-! #### world.ts: trees, nests, bushes, houses, farm plots -/

/-- The leaf-cell lattice of `createTree`: `y` from `canopyBaseY` stepping 1
while `y < canopyBaseY + canopyHeight` (hence `⌈canopyHeight⌉` iterations),
`lx`,`lz` from `-canopyRadius` stepping 1 while `≤ canopyRadius` (hence
`⌊2·canopyRadius⌋+1` iterations); a cell is a leaf iff it lies inside the
squashed-sphere distance bound and its seeded draw exceeds 0.2. -/
noncomputable def treeLeafCells (seed : ℝ) : List (ℝ × ℝ × ℝ) :=
  let trunkHeight := 5 + pseudoRandom (seed + 1) * 4
  let canopyBaseY := trunkHeight - 2
  let canopyHeight := 3 + pseudoRandom (seed + 3) * 2
  let canopyRadius := 2 + pseudoRandom (seed + 4) * 1.5
  (List.range ⌈canopyHeight⌉₊).flatMap fun ky =>
    (List.range (⌊2 * canopyRadius⌋₊ + 1)).flatMap fun ix =>
      (List.range (⌊2 * canopyRadius⌋₊ + 1)).filterMap fun iz =>
        let y := canopyBaseY + ky
        let lx := -canopyRadius + ix
        let lz := -canopyRadius + iz
        let dist := Real.sqrt (lx ^ 2 + lz ^ 2 +
          ((y - canopyBaseY - canopyHeight / 2) * 1.5) ^ 2)
        if dist < canopyRadius ∧ pseudoRandom (seed + lx * 13 + y * 31 + lz * 53) > 0.2 then
          some (lx, y, lz)
        else none

structure TreeModel where
  trunkHeight : ℝ
  trunkWidth : ℝ
  leafCells : List (ℝ × ℝ × ℝ)
  nest : Option (ℝ × ℝ × ℝ)
  x : ℝ
  z : ℝ

/-- `createTree` from world.ts.  The nest is added only when the tree has any
leaves at all, the seeded gate `pseudoRandom(seed+57) < NEST_CHANCE` passes
AND `leafPositions.length > 5`; its position is a seeded pick among the
mid-canopy leaves (falling back to all leaves), raised by 0.5.  (The nest's
twig micro-geometry — built by `createNest` with `Math.random()` — is
renderer-level cosmetics and not part of the model.) -/
noncomputable def createTree (x z seed : ℝ) : TreeModel :=
  let trunkHeight := 5 + pseudoRandom (seed + 1) * 4
  let trunkWidth := 0.9 + pseudoRandom (seed + 2) * 0.4
  let canopyBaseY := trunkHeight - 2
  let canopyHeight := 3 + pseudoRandom (seed + 3) * 2
  let leafPositions := treeLeafCells seed
  let nest : Option (ℝ × ℝ × ℝ) :=
    if leafPositions.length > 0 ∧
        (pseudoRandom (seed + 57) < NEST_CHANCE ∧ leafPositions.length > 5) then
      let suitableLeaves := leafPositions.filter fun pp =>
        decide (canopyBaseY + 1 < pp.2.1 ∧ pp.2.1 < canopyBaseY + canopyHeight - 1)
      let targetLeafPos :=
        if suitableLeaves.length > 0 then
          suitableLeaves.getD (⌊pseudoRandom (seed + 61) * suitableLeaves.length⌋).toNat
            (0, 0, 0)
        else
          leafPositions.getD (⌊pseudoRandom (seed + 61) * leafPositions.length⌋).toNat
            (0, 0, 0)
      some (targetLeafPos.1, targetLeafPos.2.1 + 0.5, targetLeafPos.2.2)
    else none
  { trunkHeight := trunkHeight, trunkWidth := trunkWidth, leafCells := leafPositions,
    nest := nest, x := x, z := z }

/-- The nest decision of `createTree` (world.ts line 66), as a function of the
gate draw and the leaf-cell count: `draw < NEST_CHANCE && count > 5`. -/
def nestDecision (draw : ℝ) (numLeafCells : ℕ) : Prop :=
  draw < NEST_CHANCE ∧ 5 < numLeafCells

/-- Modelled from the spec: the claimed nest rule — "the probability gate
passes and the tree has AT LEAST 5 leaf cells". -/
def claimedNestDecision (draw : ℝ) (numLeafCells : ℕ) : Prop :=
  draw < NEST_CHANCE ∧ 5 ≤ numLeafCells

/-- C8 counterexample: the claimed rule and the code's nest decision disagree
at gate draw 0 (which passes, `0 < NEST_CHANCE`) and exactly 5 leaf cells: the
claim mandates a nest, the code requires strictly more than 5 leaf cells and
places none. -/
theorem nest_gate_boundary_counterexample :
    claimedNestDecision 0 5 ∧ ¬ nestDecision 0 5 := by
  constructor
  · exact ⟨by norm_num [NEST_CHANCE], le_refl 5⟩
  · intro h
    exact absurd h.2 (by norm_num)

/-- C8 (amended): a tree produced by `createTree` hosts a nest (exactly one —
the `nest` field is an `Option`, set at most once) iff the seeded gate
`pseudoRandom(seed+57) < NEST_CHANCE` passes and the tree has MORE than 5
(i.e. at least 6) leaf cells; in particular no tree with fewer than 5 leaf
cells ever hosts a nest. -/
theorem createTree_nest_gate (x z seed : ℝ) :
    (createTree x z seed).nest.isSome = true ↔
      nestDecision (pseudoRandom (seed + 57)) (treeLeafCells seed).length := by
  unfold createTree nestDecision
  dsimp only
  split
  · rename_i h
    simp only [Option.isSome_some]
    exact iff_of_true trivial ⟨h.2.1, h.2.2⟩
  · rename_i h
    simp only [Option.isSome_none]
    constructor
    · intro hfalse
      exact absurd hfalse (by simp)
    · intro hc
      exact absurd ⟨by omega, hc.1, hc.2⟩ h

structure BushModel where
  size : ℝ
  leafPositions : List (ℝ × ℝ × ℝ)

/-- `createBush` from world.ts: `⌈5 + pseudoRandom(seed+1)·5⌉` leaf clusters
at seeded offsets scaled by the bush size. -/
noncomputable def createBush (seed : ℝ) : BushModel :=
  let size := 1 + pseudoRandom seed * 1.5
  { size := size,
    leafPositions := (List.range ⌈5 + pseudoRandom (seed + 1) * 5⌉₊).map fun i =>
      ((pseudoRandom (seed + i * 2) - 0.5) * size,
       (pseudoRandom (seed + i * 3) - 0.3) * size * 0.5,
       (pseudoRandom (seed + i * 5) - 0.5) * size) }

structure HouseModel where
  width : ℝ
  depth : ℝ

/-- `createHouse` from world.ts: seeded width/depth (the `seed++`
post-increments make depth use `seed+1`); walls/roof/floor are deterministic
geometry derived from them, and `interiorPoint` is the constant `(0,1,−1)`. -/
noncomputable def createHouse (seed : ℝ) : HouseModel :=
  { width := 5 + pseudoRandom seed * 2, depth := 6 + pseudoRandom (seed + 1) * 3 }

structure FarmModel where
  width : ℕ
  depth : ℕ
  cells : List (ℝ × ℝ × Bool × ℝ)
  workPoints : List (ℝ × ℝ × ℝ)

/-- `createFarmPlot` from world.ts: seeded integer width/depth (`seed++` twice,
so the cell seeds use `seed+2`); each interior cell is water iff its seeded
draw is `< 0.2`, else farmland with a seeded crop height and a work point
`(x, 0.5, z)`. -/
noncomputable def createFarmPlot (seed : ℝ) : FarmModel :=
  let width : ℕ := 4 + (⌊pseudoRandom seed * 3⌋).toNat
  let depth : ℕ := 6 + (⌊pseudoRandom (seed + 1) * 4⌋).toNat
  let s2 := seed + 2
  let cells : List (ℝ × ℝ × Bool × ℝ) :=
    (List.range (width - 2)).flatMap fun i =>
      (List.range (depth - 2)).map fun j =>
        let fx : ℝ := -(width : ℝ) / 2 + 1 + i
        let fz : ℝ := -(depth : ℝ) / 2 + 1 + j
        if pseudoRandom (s2 + fx * 17 + fz * 31) < 0.2 then (fx, fz, true, (0 : ℝ))
        else (fx, fz, false, pseudoRandom (s2 + fz * 5 + fx * 3) * 0.8 + 0.2)
  { width := width, depth := depth, cells := cells,
    workPoints := (cells.filter fun c => !c.2.2.1).map fun c => (c.1, (0.5 : ℝ), c.2.1) }

/-! #### Per-cell ground decorations (updateWorld inner loop, step 2 over the
32×32 chunk) -/

inductive FlowerColor | red | yellow | blue
deriving DecidableEq, Repr

inductive MushroomCap | brown | red
deriving DecidableEq, Repr

structure CellDecoration where
  isDirtPatch : Bool
  flower : Option ((ℝ × ℝ × ℝ) × FlowerColor)
  grassTuft : Option ((ℝ × ℝ × ℝ) × ℕ)
  mushroom : Option ((ℝ × ℝ × ℝ) × MushroomCap)

/-- One cell `(i, j)` (both even, `0 ≤ i,j < 32`) of chunk `(x, z)`:
`blockSeed = worldX·1839 + worldZ·3847` decides the dirt patch
(`pseudoRandom(blockSeed) ≤ DIRT_PATCH_DENSITY`), and the flower / grass tuft /
mushroom decorations with their jittered positions, colours and blade counts
are all seeded from `blockSeed` (modulated by the fixed-seed `floraNoise`).
Per-blade grass rotations (also `pseudoRandom`-seeded) are left out of the
record; positions and counts are captured. -/
noncomputable def cellDecoration (x z i j : ℤ) : CellDecoration :=
  let worldX : ℤ := x * CHUNK_SIZE + i - CHUNK_SIZE / 2 + 1
  let worldZ : ℤ := z * CHUNK_SIZE + j - CHUNK_SIZE / 2 + 1
  let blockSeed : ℝ := ((worldX * 1839 + worldZ * 3847 : ℤ) : ℝ)
  let localX : ℝ := (i : ℝ) - ((CHUNK_SIZE : ℤ) : ℝ) / 2 + 1
  let localZ : ℝ := (j : ℝ) - ((CHUNK_SIZE : ℤ) : ℝ) / 2 + 1
  let cx : ℝ := ((x * CHUNK_SIZE : ℤ) : ℝ)
  let cz : ℝ := ((z * CHUNK_SIZE : ℤ) : ℝ)
  let isDirt : Bool := decide (pseudoRandom blockSeed ≤ DIRT_PATCH_DENSITY)
  let floraDensity := (floraNoise ((worldX : ℝ) / 50) ((worldZ : ℝ) / 50) + 1) / 2
  let floraSeed := blockSeed * 3
  let flower : Option ((ℝ × ℝ × ℝ) × FlowerColor) :=
    if isDirt = false ∧ pseudoRandom floraSeed < FLOWER_DENSITY * floraDensity then
      let flowerX := localX + (pseudoRandom (floraSeed * 2) - 0.5)
      let flowerZ := localZ + (pseudoRandom (floraSeed * 3) - 0.5)
      let flowerY := getHeight (cx + flowerX) (cz + flowerZ)
      let colorRand := pseudoRandom (floraSeed * 5)
      some ((flowerX, flowerY + 0.5, flowerZ),
        if colorRand < 0.4 then FlowerColor.red
        else if colorRand < 0.8 then FlowerColor.yellow
        else FlowerColor.blue)
    else none
  let grassTuft : Option ((ℝ × ℝ × ℝ) × ℕ) :=
    if isDirt = false ∧ pseudoRandom (floraSeed + 10) < GRASS_DENSITY * floraDensity * 2 then
      let grassX := localX + (pseudoRandom (floraSeed * 11) - 0.5)
      let grassZ := localZ + (pseudoRandom (floraSeed * 12) - 0.5)
      let grassY := getHeight (cx + grassX) (cz + grassZ)
      some ((grassX, grassY + 0.6, grassZ), 2 + (⌊pseudoRandom (floraSeed * 13) * 3⌋).toNat)
    else none
  let floraSeedMush := blockSeed * 5
  let floraDensityMush := (floraNoise ((worldX : ℝ) / 20) ((worldZ : ℝ) / 20) + 1) / 2
  let mushroom : Option ((ℝ × ℝ × ℝ) × MushroomCap) :=
    if isDirt = true ∧ pseudoRandom floraSeedMush < MUSHROOM_DENSITY * floraDensityMush then
      let mushX := localX + (pseudoRandom (floraSeedMush * 6) - 0.5)
      let mushZ := localZ + (pseudoRandom (floraSeedMush * 7) - 0.5)
      let mushY := getHeight (cx + mushX) (cz + mushZ)
      some ((mushX, mushY + 0.6, mushZ),
        if pseudoRandom (floraSeedMush * 9) < 0.6 then MushroomCap.brown else MushroomCap.red)
    else none
  { isDirtPatch := isDirt, flower := flower, grassTuft := grassTuft, mushroom := mushroom }

/-! #### Chunk-level structures and the assembled layout -/

/-- The per-chunk seed of `updateWorld`: `seed = x*1839 + z*3847`. -/
noncomputable def chunkSeed (x z : ℤ) : ℝ := ((x * 1839 + z * 3847 : ℤ) : ℝ)

structure TreePlacement where
  model : TreeModel
  y : ℝ

structure BushPlacement where
  model : BushModel
  x : ℝ
  y : ℝ
  z : ℝ

structure HousePlacement where
  model : HouseModel
  x : ℝ
  y : ℝ
  z : ℝ
  rotY : ℝ

def professionOfNat : ℕ → Profession
  | 0 => Profession.farmer
  | 1 => Profession.librarian
  | 2 => Profession.blacksmith
  | _ => Profession.nitwit

structure VillageLayout where
  houses : List HousePlacement
  farm : FarmModel
  farmY : ℝ
  wellY : ℝ
  numVillagers : ℕ
  professions : List Profession

/-- The village layout of `updateWorld`: `villageSeed = seed*17`; `2+⌊pr·2⌋`
houses placed radially (angle `(i/n)·2π + pr·0.5`, radius `8 + pr·4`, yaw
`−angle + π/2`), one farm plot at `(0, getHeight, 12)`, one well at
`(0, getHeight, −2)`, villager count `numHouses + ⌊pr⌋` and seeded
professions. -/
noncomputable def villageLayoutOf (x z : ℤ) (seed : ℝ) : VillageLayout :=
  let villageSeed := seed * 17
  let vx : ℝ := ((x * CHUNK_SIZE : ℤ) : ℝ)
  let vz : ℝ := ((z * CHUNK_SIZE : ℤ) : ℝ)
  let numHouses := 2 + (⌊pseudoRandom villageSeed * 2⌋).toNat
  let houses := (List.range numHouses).map fun i =>
    let house := createHouse (villageSeed + i * 3)
    let angle := ((i : ℝ) / numHouses) * Real.pi * 2 + pseudoRandom (villageSeed + i) * 0.5
    let radius := 8 + pseudoRandom (villageSeed + i * 2) * 4
    let houseX := Real.cos angle * radius
    let houseZ := Real.sin angle * radius
    { model := house, x := houseX, y := getHeight (vx + houseX) (vz + houseZ),
      z := houseZ, rotY := -angle + Real.pi / 2 : HousePlacement }
  let numVillagers := numHouses + (⌊pseudoRandom (villageSeed + 17)⌋).toNat
  { houses := houses,
    farm := createFarmPlot (villageSeed + 11),
    farmY := getHeight vx vz,
    wellY := getHeight vx vz,
    numVillagers := numVillagers,
    professions := (List.range numVillagers).map fun i =>
      professionOfNat (⌊pseudoRandom (villageSeed + i * 19) * 4⌋).toNat }

structure ChunkLayout where
  cells : List CellDecoration
  tree : Option TreePlacement
  treeGrass : List ((ℝ × ℝ × ℝ) × ℕ)
  bush : Option BushPlacement
  village : Option VillageLayout

/-- The ring of grass tufts around a placed tree (15 seeded angle/radius
draws, each with a seeded blade count). -/
noncomputable def treeGrassRing (cx cz treeX treeZ seed : ℝ) :
    List ((ℝ × ℝ × ℝ) × ℕ) :=
  (List.range 15).map fun k =>
    let angle := pseudoRandom (seed * k * 5) * Real.pi * 2
    let radius := 1 + pseudoRandom (seed * k * 7) * 3
    let grassX := treeX + Real.cos angle * radius
    let grassZ := treeZ + Real.sin angle * radius
    let grassY := getHeight (cx + grassX) (cz + grassZ)
    ((grassX, grassY + 0.6, grassZ), 2 + (⌊pseudoRandom (seed * k * 9) * 3⌋).toNat)

/-- The complete decoration/structure layout of chunk `(x, z)` — a pure
function of the chunk coordinate: per-cell decorations over the 16×16 sampled
cells, the seeded tree (gate `pseudoRandom(seed) < TREE_DENSITY`), its grass
ring, the seeded bush (gate `pseudoRandom(seed·5) < BUSH_DENSITY`), and the
seeded village (gate `pseudoRandom(seed·13) < VILLAGE_DENSITY`; the
`!activeVillages.has(chunkId)` latch only prevents double-spawning while the
chunk is already active). -/
noncomputable def chunkLayoutOfCoord (x z : ℤ) : ChunkLayout :=
  let seed := chunkSeed x z
  let cx : ℝ := ((x * CHUNK_SIZE : ℤ) : ℝ)
  let cz : ℝ := ((z * CHUNK_SIZE : ℤ) : ℝ)
  let cells := (List.range 16).flatMap fun ii =>
    (List.range 16).map fun jj => cellDecoration x z (2 * ii) (2 * jj)
  let tree : Option TreePlacement :=
    if pseudoRandom seed < TREE_DENSITY then
      let treeX := (pseudoRandom (seed * 2) - 0.5) * ((CHUNK_SIZE : ℤ) : ℝ) * 0.8
      let treeZ := (pseudoRandom (seed * 3) - 0.5) * ((CHUNK_SIZE : ℤ) : ℝ) * 0.8
      some { model := createTree treeX treeZ seed, y := getHeight (cx + treeX) (cz + treeZ) }
    else none
  let treeGrass : List ((ℝ × ℝ × ℝ) × ℕ) :=
    match tree with
    | some tp => treeGrassRing cx cz tp.model.x tp.model.z seed
    | none => []
  let bush : Option BushPlacement :=
    if pseudoRandom (seed * 5) < BUSH_DENSITY then
      let bushX := (pseudoRandom (seed * 7) - 0.5) * ((CHUNK_SIZE : ℤ) : ℝ) * 0.9
      let bushZ := (pseudoRandom (seed * 11) - 0.5) * ((CHUNK_SIZE : ℤ) : ℝ) * 0.9
      some { model := createBush seed, x := bushX,
             y := getHeight (cx + bushX) (cz + bushZ) + 0.5, z := bushZ }
    else none
  let village : Option VillageLayout :=
    if pseudoRandom (seed * 13) < VILLAGE_DENSITY then some (villageLayoutOf x z seed)
    else none
  { cells := cells, tree := tree, treeGrass := treeGrass, bush := bush, village := village }

/-! #### Entity initialisation during generation (updateWorld)

The only `Math.random()` draws on the generation path are here: bird flap
offsets, bird velocities, the `findNewLandingSpot` leaf pick, the look-away
direction (not modelled — it only orients the mesh) and the villager spawn
angle.  They are modelled by the `rng` stream; everything else is
`pseudoRandom`-seeded. -/

/-- `findNewLandingSpot` from utils.ts: a random leaf cell (index
`⌊r·count⌋`), lowered by 0.8; `(0, treeHeight, 0)` if the tree has no
leaves. -/
noncomputable def findNewLandingSpot (tree : TreeModel) (r : ℝ) : ℝ × ℝ × ℝ :=
  if tree.leafCells.length = 0 then (0, tree.trunkHeight, 0)
  else
    let lp := tree.leafCells.getD (⌊r * tree.leafCells.length⌋).toNat (0, 0, 0)
    (lp.1, lp.2.1 - 0.8, lp.2.2)

structure BirdInit where
  stateTimer : ℝ
  landingSpot : ℝ × ℝ × ℝ
  hasNest : Bool
  flapOffset : ℝ
  velocity : ℝ × ℝ × ℝ
  position : ℝ × ℝ × ℝ

/-- Birds spawned with a chunk: only when a tree was placed, the seeded gate
`pseudoRandom(seed·5) < BIRD_TREE_CHANCE` passes and the tree has leaves;
`⌊pseudoRandom(seed·7)·3⌋+1` birds with seeded state timers; nesting birds
perch on the nest (raised 0.2), others on a random leaf. -/
noncomputable def chunkBirds (x z : ℤ) (rng : ℕ → ℝ) : List BirdInit :=
  let seed := chunkSeed x z
  match (chunkLayoutOfCoord x z).tree with
  | none => []
  | some tp =>
      if pseudoRandom (seed * 5) < BIRD_TREE_CHANCE ∧ tp.model.leafCells.length ≠ 0 then
        (List.range ((⌊pseudoRandom (seed * 7) * 3⌋).toNat + 1)).map fun i =>
          let treeHasNest := tp.model.nest.isSome
          let landingSpot :=
            match tp.model.nest with
            | some npos => npos
            | none => findNewLandingSpot tp.model (rng (5 * i))
          let treeWorldX := ((x * CHUNK_SIZE : ℤ) : ℝ) + tp.model.x
          let treeWorldZ := ((z * CHUNK_SIZE : ℤ) : ℝ) + tp.model.z
          let vx := (rng (5 * i + 2) - 0.5) * 2
          let vz := (rng (5 * i + 3) - 0.5) * 2
          let vlen := Real.sqrt (vx ^ 2 + vz ^ 2)
          { stateTimer := pseudoRandom (seed * 13 * (i + 1)) * 10 + 5,
            landingSpot := landingSpot,
            hasNest := treeHasNest,
            flapOffset := rng (5 * i + 1) * Real.pi * 2,
            velocity := (vx / vlen * BIRD_MAX_SPEED, 0, vz / vlen * BIRD_MAX_SPEED),
            position := (treeWorldX + landingSpot.1,
                         tp.y + landingSpot.2.1 + (if treeHasNest then 0.2 else 0),
                         treeWorldZ + landingSpot.2.2) }
      else []

structure VillagerInit where
  profession : Profession
  position : ℝ × ℝ × ℝ
  homePoint : ℝ × ℝ × ℝ
  workPoint : Option (ℝ × ℝ × ℝ)
  stateTimer : ℝ
  rotY : ℝ

/-- Villagers spawned with a village: spawn angle is `Math.random()` (the
`rng` stream), while profession, home point (the house `interiorPoint`
`(0,1,−1)` rotated by the house yaw, terrain-clamped `+1`), farm work point
(terrain-clamped `+0.5`), state timer and initial yaw are seeded. -/
noncomputable def chunkVillagers (x z : ℤ) (rng : ℕ → ℝ) : List VillagerInit :=
  let seed := chunkSeed x z
  match (chunkLayoutOfCoord x z).village with
  | none => []
  | some vl =>
      let villageSeed := seed * 17
      let vx : ℝ := ((x * CHUNK_SIZE : ℤ) : ℝ)
      let vz : ℝ := ((z * CHUNK_SIZE : ℤ) : ℝ)
      (List.range vl.numVillagers).map fun i =>
        let prof := vl.professions.getD i Profession.nitwit
        let spawnAngle := rng (1000 + i) * Real.pi * 2
        let villagerX := vx + Real.cos spawnAngle * 5
        let villagerZ := vz + Real.sin spawnAngle * 5
        let homeHouse := vl.houses.getD (i % vl.houses.length)
          { model := { width := 0, depth := 0 }, x := 0, y := 0, z := 0, rotY := 0 }
        let homeX := homeHouse.x + (-(Real.sin homeHouse.rotY)) + vx
        let homeZ := homeHouse.z + (-(Real.cos homeHouse.rotY)) + vz
        let workPoint : Option (ℝ × ℝ × ℝ) :=
          if prof = Profession.farmer ∧ vl.farm.workPoints.length > 0 then
            let wp := vl.farm.workPoints.getD (i % vl.farm.workPoints.length) (0, 0, 0)
            let px := 0 + wp.1 + vx
            let pz := 12 + wp.2.2 + vz
            some (px, getHeight px pz + 0.5, pz)
          else none
        { profession := prof,
          position := (villagerX, getHeight villagerX villagerZ, villagerZ),
          homePoint := (homeX, getHeight homeX homeZ + 1, homeZ),
          workPoint := workPoint,
          stateTimer := pseudoRandom (villageSeed * 23 * i) * 5 + 3,
          rotY := pseudoRandom (seed * 29) * Real.pi * 2 }

structure GeneratedChunk where
  layout : ChunkLayout
  birds : List BirdInit
  villagers : List VillagerInit

/-- One run of the generation branch of `updateWorld` for a chunk coordinate:
the seeded layout plus the entities, whose initialisation consumes the
session's `Math.random()` stream. -/
noncomputable def generateChunk (x z : ℤ) (rng : ℕ → ℝ) : GeneratedChunk :=
  { layout := chunkLayoutOfCoord x z,
    birds := chunkBirds x z rng,
    villagers := chunkVillagers x z rng }

/-- C3: chunk generation is deterministic per coordinate.  Two runs of
`generateChunk` at the same coordinate — e.g. the original generation and a
regeneration after teardown, in the same or another session, with entirely
different `Math.random()` streams — produce identical decoration counts,
identical decoration positions (cells, grass, flowers, mushrooms, tree leaf
cells, nest, bush clusters) and identical structure placement (tree, bush,
village houses/farm/well), because every layout decision is `pseudoRandom` of
a seed derived only from the coordinates. -/
theorem generateChunk_layout_deterministic (x z : ℤ) (r1 r2 : ℕ → ℝ) :
    (generateChunk x z r1).layout = (generateChunk x z r2).layout := rfl

/-- C10: chunk layout depends on the chunk coordinate alone — there is no
world-seed input anywhere in the generation path.  The layout of every
generated chunk equals `chunkLayoutOfCoord x z`, a function whose only inputs
are the coordinates, built on the per-chunk seed `x·1839 + z·3847`
(`chunkSeed`) and the per-cell seed `⌊worldX⌋·1839 + ⌊worldZ⌋·3847`
(`cellDecoration`); hence every session and every world instance produces the
identical decoration/structure layout at the same coordinate. -/
theorem chunk_layout_coordinate_only (x z : ℤ) (rng : ℕ → ℝ) :
    (generateChunk x z rng).layout = chunkLayoutOfCoord x z ∧
    chunkSeed x z = ((x * 1839 + z * 3847 : ℤ) : ℝ) :=
  ⟨rfl, rfl⟩

end MinecraftCore
